import Mathlib

/-!
Verification of the FinTrack dashboard's computed-metrics core and insight
request pipeline, embedded shallowly from the TypeScript source
(`src/types.ts`, `src/App.tsx`, `src/services/geminiService.ts`).

Modelling conventions:
* JavaScript `number` is modelled as `ℚ` (exact arithmetic); all amounts in
  the claims are exact decimals, so no rounding behaviour of IEEE doubles is
  involved in any statement proved here.
* `status?: TransactionStatus` is `Option TransactionStatus`.
* `Math.round` is Mathlib's `round` (`⌊x + 1/2⌋`, which agrees with
  JavaScript's half-up rounding), `Math.min`/`Math.max` are `min`/`max`.
* The asynchronous gemini call is modelled by passing the outcome of the
  single network request as an explicit parameter and counting how many
  requests the function issues.
-/

/-- `TransactionStatus` from `src/types.ts`. -/
inductive TransactionStatus where
  | UNPAID
  | PAID
  | PENDING
deriving DecidableEq, Repr

/-- `FinancialEntry` from `src/types.ts`; `status` is an optional field. -/
structure FinancialEntry where
  id : String
  label : String
  amount : ℚ
  status : Option TransactionStatus := none
deriving DecidableEq, Repr

/-- `DashboardData` from `src/types.ts`: ten named category lists. -/
@[ext]
structure DashboardData where
  savingsAccounts : List FinancialEntry
  accountBalances : List FinancialEntry
  receivables : List FinancialEntry
  loans : List FinancialEntry
  subscriptions : List FinancialEntry
  savingsContribution : List FinancialEntry
  utilities : List FinancialEntry
  plans : List FinancialEntry
  mandatories : List FinancialEntry
  otherExpenses : List FinancialEntry
deriving DecidableEq, Repr

/-- The record returned by the `stats` memo in `src/App.tsx` (lines 113-135). -/
structure Stats where
  savings : ℚ
  contributions : ℚ
  totalSavings : ℚ
  usable : ℚ
  totalExpenses : ℚ
  unpaidExpenses : ℚ
  remainingBalance : ℚ
deriving DecidableEq, Repr

/-- `calculateTotal` from `src/App.tsx`:
`entries.reduce((a, b) => a + b.amount, 0)`. -/
def calculateTotal (entries : List FinancialEntry) : ℚ :=
  entries.foldl (fun a b => a + b.amount) 0

/-- `allExpenses` from the `stats` memo in `src/App.tsx`:
`[...loans, ...subscriptions, ...savingsContribution, ...utilities, ...plans,
...mandatories, ...otherExpenses]`. -/
def allExpenses (data : DashboardData) : List FinancialEntry :=
  data.loans ++ data.subscriptions ++ data.savingsContribution ++
    data.utilities ++ data.plans ++ data.mandatories ++ data.otherExpenses

/-- The `stats` memo from `src/App.tsx` (lines 113-135), with the local
bindings inlined. -/
def computeStats (data : DashboardData) : Stats where
  savings := calculateTotal data.savingsAccounts
  contributions := calculateTotal data.savingsContribution
  totalSavings := calculateTotal data.savingsAccounts + calculateTotal data.savingsContribution
  usable := calculateTotal data.accountBalances
  totalExpenses := calculateTotal (allExpenses data)
  unpaidExpenses :=
    calculateTotal ((allExpenses data).filter
      (fun e => decide (e.status ≠ some TransactionStatus.PAID)))
  remainingBalance := calculateTotal data.accountBalances - calculateTotal (allExpenses data)

/-- Scenario A input from §8 of the specification: one account balance of
8500, one unpaid loan of 12000, all other categories empty. -/
def scenarioAData : DashboardData where
  savingsAccounts := []
  accountBalances := [{ id := "b1", label := "Checking", amount := 8500 }]
  receivables := []
  loans := [{ id := "l1", label := "Loan", amount := 12000,
              status := some TransactionStatus.UNPAID }]
  subscriptions := []
  savingsContribution := []
  utilities := []
  plans := []
  mandatories := []
  otherExpenses := []

lemma calculateTotal_nil : calculateTotal [] = 0 := rfl

lemma unpaid_ne_paid : TransactionStatus.UNPAID ≠ TransactionStatus.PAID := by
  intro h
  exact TransactionStatus.noConfusion h

lemma foldl_add_amount (l : List FinancialEntry) (c : ℚ) :
    l.foldl (fun a b => a + b.amount) c = c + calculateTotal l := by
  induction l generalizing c with
  | nil => simp [calculateTotal]
  | cons e t ih =>
      simp only [calculateTotal, List.foldl_cons] at *
      rw [ih (c + e.amount), ih (0 + e.amount)]
      ring

lemma calculateTotal_cons (e : FinancialEntry) (l : List FinancialEntry) :
    calculateTotal (e :: l) = e.amount + calculateTotal l := by
  simp only [calculateTotal, List.foldl_cons]
  rw [foldl_add_amount]
  unfold calculateTotal
  ring

lemma calculateTotal_append (l₁ l₂ : List FinancialEntry) :
    calculateTotal (l₁ ++ l₂) = calculateTotal l₁ + calculateTotal l₂ := by
  simp only [calculateTotal, List.foldl_append]
  rw [foldl_add_amount]
  unfold calculateTotal
  ring

lemma calculateTotal_filter_unpaid (l : List FinancialEntry) :
    calculateTotal (l.filter (fun e => decide (e.status ≠ some TransactionStatus.PAID)))
      = (l.map (fun e => if e.status = some TransactionStatus.PAID then 0 else e.amount)).sum := by
  induction l with
  | nil => rfl
  | cons e t ih =>
      rw [List.filter_cons, List.map_cons, List.sum_cons]
      by_cases h : e.status = some TransactionStatus.PAID
      · rw [if_neg (by simp [h]), if_pos h, zero_add, ih]
      · rw [if_pos (by simp [h]), if_neg h, calculateTotal_cons, ih]

lemma calculateTotal_filter_split (p : FinancialEntry → Bool) (l : List FinancialEntry) :
    calculateTotal l
      = calculateTotal (l.filter p) + calculateTotal (l.filter (fun e => !(p e))) := by
  induction l with
  | nil => simp [calculateTotal]
  | cons e t ih =>
      rw [List.filter_cons, List.filter_cons]
      by_cases h : p e
      · rw [if_pos h, if_neg (by simp [h]), calculateTotal_cons, calculateTotal_cons, ih]
        ring
      · rw [if_neg h, if_pos (by simp [h]), calculateTotal_cons, calculateTotal_cons, ih]
        ring

lemma calculateTotal_nonneg (l : List FinancialEntry) (h : ∀ e ∈ l, 0 ≤ e.amount) :
    0 ≤ calculateTotal l := by
  induction l with
  | nil => simp [calculateTotal]
  | cons e t ih =>
      rw [calculateTotal_cons]
      have he : 0 ≤ e.amount := h e (List.mem_cons_self e t)
      have ht : 0 ≤ calculateTotal t := ih (fun x hx => h x (List.mem_cons_of_mem e hx))
      linarith

lemma calculateTotal_eq_zero_iff (l : List FinancialEntry) (h : ∀ e ∈ l, 0 ≤ e.amount) :
    calculateTotal l = 0 ↔ ∀ e ∈ l, e.amount = 0 := by
  induction l with
  | nil => simp [calculateTotal]
  | cons e t ih =>
      rw [calculateTotal_cons]
      have he : 0 ≤ e.amount := h e (List.mem_cons_self e t)
      have ht : 0 ≤ calculateTotal t := calculateTotal_nonneg t
        (fun x hx => h x (List.mem_cons_of_mem e hx))
      constructor
      · intro hsum
        have h1 : e.amount = 0 := by linarith
        have h2 : calculateTotal t = 0 := by linarith
        intro x hx
        rcases List.mem_cons.mp hx with hx | hx
        · exact hx ▸ h1
        · exact ((ih (fun y hy => h y (List.mem_cons_of_mem e hy))).mp h2) x hx
      · intro hall
        have h1 : e.amount = 0 := hall e (List.mem_cons_self e t)
        have h2 : calculateTotal t = 0 :=
          (ih (fun y hy => h y (List.mem_cons_of_mem e hy))).mpr
            (fun x hx => hall x (List.mem_cons_of_mem e hx))
        rw [h1, h2, add_zero]

/-- C1: `computeStats` is a pure function of `DashboardData` whose fields obey
the stated defining equations (with `savingsContribution` counted both in
`totalSavings` and in the expense concatenation); on all-empty data every
field is 0; and on Scenario A it yields `usable = 8500`,
`totalExpenses = 12000`, `unpaidExpenses = 12000`,
`remainingBalance = -3500`. -/
theorem computeStats_correct :
    (∀ data : DashboardData,
      (computeStats data).savings = calculateTotal data.savingsAccounts ∧
      (computeStats data).contributions = calculateTotal data.savingsContribution ∧
      (computeStats data).totalSavings
        = (computeStats data).savings + (computeStats data).contributions ∧
      (computeStats data).usable = calculateTotal data.accountBalances ∧
      (computeStats data).totalExpenses
        = calculateTotal (data.loans ++ data.subscriptions ++ data.savingsContribution ++
            data.utilities ++ data.plans ++ data.mandatories ++ data.otherExpenses) ∧
      (computeStats data).remainingBalance
        = (computeStats data).usable - (computeStats data).totalExpenses) ∧
    (∀ data : DashboardData,
      data.savingsAccounts = [] → data.accountBalances = [] → data.receivables = [] →
      data.loans = [] → data.subscriptions = [] → data.savingsContribution = [] →
      data.utilities = [] → data.plans = [] → data.mandatories = [] →
      data.otherExpenses = [] →
      computeStats data = ⟨0, 0, 0, 0, 0, 0, 0⟩) ∧
    ((computeStats scenarioAData).usable = 8500 ∧
     (computeStats scenarioAData).totalExpenses = 12000 ∧
     (computeStats scenarioAData).unpaidExpenses = 12000 ∧
     (computeStats scenarioAData).remainingBalance = -3500) := by
  refine ⟨fun data => ⟨rfl, rfl, rfl, rfl, by simp [computeStats, allExpenses], rfl⟩,
    fun data h1 h2 h3 h4 h5 h6 h7 h8 h9 h10 => ?_, by
      refine ⟨?_, ?_, ?_, ?_⟩ <;>
        norm_num [computeStats, allExpenses, scenarioAData, calculateTotal,
          List.filter_cons, unpaid_ne_paid]⟩
  simp [computeStats, allExpenses, h1, h2, h3, h4, h5, h6, h7, h8, h9, h10, calculateTotal]

/-- Witness for C1: the all-empty-data clause applied at the concrete empty
dashboard, and the Scenario A clause. -/
theorem computeStats_correct_witness :
    computeStats ⟨[], [], [], [], [], [], [], [], [], []⟩ = ⟨0, 0, 0, 0, 0, 0, 0⟩ ∧
    (computeStats scenarioAData).remainingBalance = -3500 :=
  ⟨computeStats_correct.2.1 ⟨[], [], [], [], [], [], [], [], [], []⟩
      rfl rfl rfl rfl rfl rfl rfl rfl rfl rfl,
   computeStats_correct.2.2.2.2.2⟩

/-- C2: `unpaidExpenses` sums the amounts of exactly those expense entries
whose status is not `Paid`; an entry with no status field (`none`) falls into
the not-`Paid` branch and is therefore included in the sum. -/
theorem unpaidExpenses_characterization (data : DashboardData) :
    (computeStats data).unpaidExpenses
      = ((allExpenses data).map
          (fun e => if e.status = some TransactionStatus.PAID then 0 else e.amount)).sum := by
  exact calculateTotal_filter_unpaid (allExpenses data)

/-- Counterexample for C3: on the Scenario A data (a single Unpaid loan of
12000), `unpaidExpenses = totalExpenses` holds even though not every expense
entry's status is `Paid`, refuting the claimed "equality iff every entry is
Paid". -/
theorem unpaid_eq_total_but_not_all_paid :
    (computeStats scenarioAData).unpaidExpenses = (computeStats scenarioAData).totalExpenses ∧
    ¬ (∀ e ∈ allExpenses scenarioAData, e.status = some TransactionStatus.PAID) := by
  constructor
  · norm_num [computeStats, allExpenses, scenarioAData, calculateTotal,
      List.filter_cons, unpaid_ne_paid]
  · intro h
    have := h { id := "l1", label := "Loan", amount := 12000,
                status := some TransactionStatus.UNPAID }
      (by simp [allExpenses, scenarioAData])
    simp at this

/-- C3 (amended): with all expense amounts nonnegative,
`unpaidExpenses ≤ totalExpenses`, and equality holds iff every expense entry
whose status is `Paid` has amount 0 (in particular whenever no entry is
`Paid`). -/
theorem unpaid_le_total (data : DashboardData)
    (h : ∀ e ∈ allExpenses data, 0 ≤ e.amount) :
    (computeStats data).unpaidExpenses ≤ (computeStats data).totalExpenses ∧
    ((computeStats data).unpaidExpenses = (computeStats data).totalExpenses ↔
      ∀ e ∈ allExpenses data, e.status = some TransactionStatus.PAID → e.amount = 0) := by
  have hsplit := calculateTotal_filter_split
    (fun e => decide (e.status ≠ some TransactionStatus.PAID)) (allExpenses data)
  have hmem : ∀ e, e ∈ (allExpenses data).filter
      (fun e => !(decide (e.status ≠ some TransactionStatus.PAID))) ↔
      e ∈ allExpenses data ∧ e.status = some TransactionStatus.PAID := by
    intro e
    simp [List.mem_filter]
  have hpaid_nonneg : 0 ≤ calculateTotal ((allExpenses data).filter
      (fun e => !(decide (e.status ≠ some TransactionStatus.PAID)))) :=
    calculateTotal_nonneg _ (fun e he => h e ((hmem e).mp he).1)
  have htot : (computeStats data).totalExpenses
      = (computeStats data).unpaidExpenses + calculateTotal ((allExpenses data).filter
          (fun e => !(decide (e.status ≠ some TransactionStatus.PAID)))) := hsplit
  constructor
  · linarith
  · rw [htot]
    constructor
    · intro heq
      have hzero : calculateTotal ((allExpenses data).filter
          (fun e => !(decide (e.status ≠ some TransactionStatus.PAID)))) = 0 := by linarith
      intro e he hst
      exact (calculateTotal_eq_zero_iff _ (fun x hx => h x ((hmem x).mp hx).1)).mp hzero e
        ((hmem e).mpr ⟨he, hst⟩)
    · intro hall
      have hzero : calculateTotal ((allExpenses data).filter
          (fun e => !(decide (e.status ≠ some TransactionStatus.PAID)))) = 0 :=
        (calculateTotal_eq_zero_iff _ (fun x hx => h x ((hmem x).mp hx).1)).mpr
          (fun e he => hall e ((hmem e).mp he).1 ((hmem e).mp he).2)
      rw [hzero, add_zero]

/-- Witness for C3: the amended statement applied at the Scenario A data,
whose single expense entry has a nonnegative amount. -/
theorem unpaid_le_total_witness :
    (∀ e ∈ allExpenses scenarioAData, 0 ≤ e.amount) ∧
    (computeStats scenarioAData).unpaidExpenses ≤ (computeStats scenarioAData).totalExpenses :=
  ⟨by intro e he; simp [allExpenses, scenarioAData] at he; simp [he], 
   (unpaid_le_total scenarioAData
     (by intro e he; simp [allExpenses, scenarioAData] at he; simp [he])).1⟩

/-- The Safety Ratio headline metric rendered on the overview tab,
`src/App.tsx` line 326:
`Math.min(999, Math.round((stats.usable / (stats.totalExpenses || 1)) * 100))`.
JavaScript's `|| 1` substitutes 1 exactly when `totalExpenses` is 0. -/
def safetyRatio (stats : Stats) : ℤ :=
  min 999
    (round (stats.usable / (if stats.totalExpenses = 0 then 1 else stats.totalExpenses) * 100))

/-- Counterexample for C4: with `totalExpenses` negative (amounts are not
validated on the local-storage load path, so this state is reachable),
increasing `usable` strictly decreases `safetyRatio`, so the unrestricted
monotonicity clause of the claim fails. -/
theorem safetyRatio_not_monotone :
    (Stats.usable ⟨0, 0, 0, 0, -1, 0, 0⟩ ≤ Stats.usable ⟨0, 0, 0, 1, -1, 0, 0⟩) ∧
    (Stats.totalExpenses ⟨0, 0, 0, 0, -1, 0, 0⟩ = Stats.totalExpenses ⟨0, 0, 0, 1, -1, 0, 0⟩) ∧
    ¬ (safetyRatio ⟨0, 0, 0, 0, -1, 0, 0⟩ ≤ safetyRatio ⟨0, 0, 0, 1, -1, 0, 0⟩) := by
  refine ⟨by norm_num, by norm_num, ?_⟩
  have h₁ : safetyRatio ⟨0, 0, 0, 0, -1, 0, 0⟩ = 0 := by
    norm_num [safetyRatio]
  have h₂ : safetyRatio ⟨0, 0, 0, 1, -1, 0, 0⟩ = -100 := by
    have hr : round ((-100 : ℚ)) = (-100 : ℤ) := by
      rw [show ((-100 : ℚ)) = ((-100 : ℤ) : ℚ) by norm_num, round_intCast]
    norm_num [safetyRatio, hr, min_def]
  rw [h₁, h₂]
  norm_num

/-- C4 (amended): `safetyRatio` equals
`min 999 (round (usable / (totalExpenses or 1) * 100))`, substitutes 1 when
`totalExpenses = 0`, is capped at 999 for every input, and — for nonnegative
`totalExpenses` — is monotonically non-decreasing in `usable` when
`totalExpenses` is held fixed. -/
theorem safetyRatio_spec :
    (∀ s : Stats, safetyRatio s
        = min 999 (round (s.usable / (if s.totalExpenses = 0 then 1 else s.totalExpenses) * 100))) ∧
    (∀ s : Stats, safetyRatio s ≤ 999) ∧
    (∀ s : Stats, s.totalExpenses = 0 → safetyRatio s = min 999 (round (s.usable * 100))) ∧
    (∀ s₁ s₂ : Stats, 0 ≤ s₁.totalExpenses → s₁.totalExpenses = s₂.totalExpenses →
      s₁.usable ≤ s₂.usable → safetyRatio s₁ ≤ safetyRatio s₂) := by
  refine ⟨fun s => rfl, fun s => min_le_left _ _, fun s h => by simp [safetyRatio, h], ?_⟩
  intro s₁ s₂ hte heq hus
  unfold safetyRatio
  rw [← heq]
  have hq : 0 < (if s₁.totalExpenses = 0 then 1 else s₁.totalExpenses) := by
    by_cases h : s₁.totalExpenses = 0
    · simp [h]
    · simp only [h, if_false]
      exact lt_of_le_of_ne hte (Ne.symm h)
  have hdiv : s₁.usable / (if s₁.totalExpenses = 0 then 1 else s₁.totalExpenses) * 100
      ≤ s₂.usable / (if s₁.totalExpenses = 0 then 1 else s₁.totalExpenses) * 100 :=
    mul_le_mul_of_nonneg_right ((div_le_div_iff_of_pos_right hq).mpr hus) (by norm_num)
  have hround := Int.floor_le_floor
    (add_le_add_right hdiv (1 / 2 : ℚ))
  rw [round_eq, round_eq]
  exact min_le_min (le_refl 999) hround

/-- Witness for C4: the amended statement applied at concrete stats records
with `totalExpenses = 2` and `usable` 1 and 3. -/
theorem safetyRatio_spec_witness :
    safetyRatio ⟨0, 0, 0, 1, 2, 0, 0⟩ ≤ 999 ∧
    ((0 : ℚ) ≤ Stats.totalExpenses ⟨0, 0, 0, 1, 2, 0, 0⟩ ∧
      safetyRatio ⟨0, 0, 0, 1, 2, 0, 0⟩ ≤ safetyRatio ⟨0, 0, 0, 3, 2, 0, 0⟩) :=
  ⟨safetyRatio_spec.2.1 ⟨0, 0, 0, 1, 2, 0, 0⟩,
   by norm_num,
   safetyRatio_spec.2.2.2 ⟨0, 0, 0, 1, 2, 0, 0⟩ ⟨0, 0, 0, 3, 2, 0, 0⟩
     (by norm_num) (by norm_num) (by norm_num)⟩

/-- One record of the `predictionData` memo, `src/App.tsx` lines 211-222.
The source also attaches a display month name derived from the current wall
clock; that field is presentational and time-dependent, so it is omitted and
the 1-based loop index is kept instead. -/
structure ProjectedMonth where
  index : ℕ
  balance : ℚ
  safety : ℚ
deriving DecidableEq, Repr

/-- `predictionData` from `src/App.tsx` (lines 211-222), generalized over the
month count (the source's loop runs `for (let i = 1; i <= 3; i++)`):
`balance = stats.usable + monthlyNet * i` with `monthlyNet =
stats.remainingBalance`, and
`safety = Math.max(0, Math.min(100, (balance / (stats.totalExpenses || 1)) * 100))`. -/
def projectMonths (stats : Stats) (monthCount : ℕ) : List ProjectedMonth :=
  (List.range monthCount).map (fun k =>
    let i : ℕ := k + 1
    let balance := stats.usable + stats.remainingBalance * i
    { index := i,
      balance := balance,
      safety := max 0 (min 100
        (balance / (if stats.totalExpenses = 0 then 1 else stats.totalExpenses) * 100)) })

/-- C5: `projectMonths` with `monthCount = 3` returns exactly the records for
i = 1, 2, 3 with `balance_i = usable + remainingBalance * i` and
`safety_i = clamp(0, 100, balance_i / (totalExpenses or 1) * 100)` (the
divisor is 1 when `totalExpenses = 0`); and every produced month, for any
month count, has `0 ≤ safety ≤ 100`. -/
theorem projectMonths_spec :
    (∀ s : Stats, projectMonths s 3 =
      [⟨1, s.usable + s.remainingBalance * 1,
          max 0 (min 100 ((s.usable + s.remainingBalance * 1)
            / (if s.totalExpenses = 0 then 1 else s.totalExpenses) * 100))⟩,
       ⟨2, s.usable + s.remainingBalance * 2,
          max 0 (min 100 ((s.usable + s.remainingBalance * 2)
            / (if s.totalExpenses = 0 then 1 else s.totalExpenses) * 100))⟩,
       ⟨3, s.usable + s.remainingBalance * 3,
          max 0 (min 100 ((s.usable + s.remainingBalance * 3)
            / (if s.totalExpenses = 0 then 1 else s.totalExpenses) * 100))⟩]) ∧
    (∀ (s : Stats) (n : ℕ), ∀ m ∈ projectMonths s n, 0 ≤ m.safety ∧ m.safety ≤ 100) := by
  constructor
  · intro s
    norm_num [projectMonths, List.range_succ]
  · intro s n m hm
    simp only [projectMonths, List.mem_map] at hm
    obtain ⟨k, _, hk⟩ := hm
    subst hk
    exact ⟨le_max_left 0 _, max_le (by norm_num) (min_le_left _ _)⟩

/-- Witness for C5: the month bound applied to the single month produced from
the all-zero stats record. -/
theorem projectMonths_spec_witness :
    (⟨1, 0, 0⟩ : ProjectedMonth) ∈ projectMonths ⟨0, 0, 0, 0, 0, 0, 0⟩ 1 ∧
    (0 ≤ ProjectedMonth.safety ⟨1, 0, 0⟩ ∧ ProjectedMonth.safety ⟨1, 0, 0⟩ ≤ 100) :=
  ⟨by norm_num [projectMonths, List.range_succ],
   projectMonths_spec.2 ⟨0, 0, 0, 0, 0, 0, 0⟩ 1 ⟨1, 0, 0⟩
     (by norm_num [projectMonths, List.range_succ])⟩

/-- `InsightView` from `src/services/geminiService.ts`. -/
inductive InsightView where
  | overview
  | prediction
deriving DecidableEq, Repr

/-- The typed failures `getFinancialInsights` can raise:
`credentialMissing` models `throw new Error("API_KEY_MISSING")` (the spec's
`CredentialMissing`) and `modelNotFound` models
`throw new Error("MODEL_NOT_FOUND")` (the spec's `ModelNotFound`). -/
inductive InsightError where
  | credentialMissing
  | modelNotFound
deriving DecidableEq, Repr

/-- Outcome of the single `ai.models.generateContent` network call, passed to
the model as an explicit parameter: on success the `response.text` field
(possibly absent), on failure the thrown error's `message` (possibly absent). -/
inductive GenOutcome where
  | success (text : Option String)
  | failure (message : Option String)
deriving DecidableEq, Repr

/-- JavaScript falsiness of an optional string (`!x`): both an absent value
and the empty string are falsy. -/
def strFalsy : Option String → Bool
  | none => true
  | some s => s == ""

/-- Whether `pat` occurs at the start of `cs`. -/
def startsWithChars : List Char → List Char → Bool
  | [], _ => true
  | _ :: _, [] => false
  | p :: ps, c :: cs => p == c && startsWithChars ps cs

/-- Whether `pat` occurs contiguously anywhere in the character list. -/
def occursIn (pat : List Char) : List Char → Bool
  | [] => startsWithChars pat []
  | c :: cs => startsWithChars pat (c :: cs) || occursIn pat cs

/-- JavaScript `s.includes(pat)`. -/
def containsSub (s pat : String) : Bool :=
  occursIn pat.data s.data

/-- The substring tested by the catch block of `getFinancialInsights` to
recognize a model/resource-not-found failure. -/
def modelNotFoundMarker : String := "Requested entity was not found"

/-- The canned fallback returned when the call succeeds but `response.text`
is empty or absent (`src/services/geminiService.ts` lines 56-58). -/
def noContentFallback : String :=
  "The strategist analyzed your data but didn't provide a written response. Try adjusting your entries."

/-- `getFinancialInsights` from `src/services/geminiService.ts`. The data and
view determine only the prompt text sent over the network, which is not
observable in the returned value; the second component counts how many
`generateContent` network calls the invocation issues. Control flow from the
source: (1) `if (!apiKey) throw new Error("API_KEY_MISSING")` before any
network activity; (2) one `generateContent` call inside `try`; (3) on success,
empty/absent `response.text` yields the canned fallback, otherwise
`response.text` is returned verbatim; (4) in `catch`, a message containing
"Requested entity was not found" is re-raised as `MODEL_NOT_FOUND`, any other
error becomes the returned string
`AI Analysis paused: ${errorMessage || "Unknown connection error"}`. -/
def getFinancialInsights (data : DashboardData) (view : InsightView)
    (apiKey : Option String) (outcome : GenOutcome) :
    Except InsightError String × Nat :=
  if strFalsy apiKey then
    (Except.error InsightError.credentialMissing, 0)
  else
    match outcome with
    | GenOutcome.success text =>
        if strFalsy text then (Except.ok noContentFallback, 1)
        else (Except.ok (text.getD ""), 1)
    | GenOutcome.failure message =>
        let errorMessage := message.getD ""
        if containsSub errorMessage modelNotFoundMarker then
          (Except.error InsightError.modelNotFound, 1)
        else
          (Except.ok ("AI Analysis paused: "
            ++ (if errorMessage == "" then "Unknown connection error" else errorMessage)), 1)

/-- C6: with no API credential configured (absent or empty, i.e. falsy), the
pipeline fails with the `CredentialMissing` typed error and issues zero
network calls, for every dashboard, view and would-be call outcome. -/
theorem credentialMissing_no_network (data : DashboardData) (view : InsightView)
    (apiKey : Option String) (outcome : GenOutcome) (h : strFalsy apiKey = true) :
    getFinancialInsights data view apiKey outcome
      = (Except.error InsightError.credentialMissing, 0) := by
  simp [getFinancialInsights, h]

/-- Witness for C6: no credential, concrete dashboard and outcome. -/
theorem credentialMissing_no_network_witness :
    strFalsy none = true ∧
    getFinancialInsights ⟨[], [], [], [], [], [], [], [], [], []⟩ InsightView.overview
        none (GenOutcome.success none)
      = (Except.error InsightError.credentialMissing, 0) :=
  ⟨rfl, credentialMissing_no_network ⟨[], [], [], [], [], [], [], [], [], []⟩
    InsightView.overview none (GenOutcome.success none) rfl⟩

/-- C7: with a credential configured, a successful call with empty or absent
text returns the fixed non-empty canned fallback (never the empty string),
and a successful call with non-empty text returns that text verbatim. -/
theorem emptyText_fallback (data : DashboardData) (view : InsightView)
    (apiKey : Option String) (text : Option String) (hk : strFalsy apiKey = false) :
    (strFalsy text = true →
      getFinancialInsights data view apiKey (GenOutcome.success text)
        = (Except.ok noContentFallback, 1) ∧ noContentFallback ≠ "") ∧
    (∀ s : String, text = some s → s ≠ "" →
      getFinancialInsights data view apiKey (GenOutcome.success text)
        = (Except.ok s, 1)) := by
  constructor
  · intro ht
    refine ⟨by simp [getFinancialInsights, hk, ht], by decide⟩
  · intro s hs hne
    subst hs
    have hf : strFalsy (some s) = false := by
      simp [strFalsy, hne]
    simp [getFinancialInsights, hk, hf]

/-- Witness for C7: credential "k"; absent text yields the canned fallback,
text "hi" is returned verbatim. -/
theorem emptyText_fallback_witness :
    strFalsy (some "k") = false ∧
    getFinancialInsights ⟨[], [], [], [], [], [], [], [], [], []⟩ InsightView.overview
        (some "k") (GenOutcome.success none) = (Except.ok noContentFallback, 1) ∧
    getFinancialInsights ⟨[], [], [], [], [], [], [], [], [], []⟩ InsightView.overview
        (some "k") (GenOutcome.success (some "hi")) = (Except.ok "hi", 1) :=
  ⟨rfl,
   ((emptyText_fallback ⟨[], [], [], [], [], [], [], [], [], []⟩ InsightView.overview
      (some "k") none rfl).1 rfl).1,
   (emptyText_fallback ⟨[], [], [], [], [], [], [], [], [], []⟩ InsightView.overview
      (some "k") (some "hi") rfl).2 "hi" rfl (by decide)⟩

/-- C8: with a credential configured and the network call failing, a message
containing "Requested entity was not found" is re-raised as the typed
`ModelNotFound` error; every other failure is converted into the returned
display string `AI Analysis paused: ...` embedding the raw error message
(with "Unknown connection error" substituted when the message is empty) —
so generic failures are returned as `ok` strings, never propagated. -/
theorem failure_classification (data : DashboardData) (view : InsightView)
    (apiKey : Option String) (message : Option String) (hk : strFalsy apiKey = false) :
    (containsSub (message.getD "") modelNotFoundMarker = true →
      getFinancialInsights data view apiKey (GenOutcome.failure message)
        = (Except.error InsightError.modelNotFound, 1)) ∧
    (containsSub (message.getD "") modelNotFoundMarker = false →
      getFinancialInsights data view apiKey (GenOutcome.failure message)
        = (Except.ok ("AI Analysis paused: "
            ++ (if message.getD "" == "" then "Unknown connection error"
                else message.getD "")), 1)) := by
  constructor <;> intro h <;> simp [getFinancialInsights, hk, h]

/-- Witness for C8: credential "k"; the marker message raises `ModelNotFound`,
the message "boom" is embedded in the returned display string. -/
theorem failure_classification_witness :
    strFalsy (some "k") = false ∧
    getFinancialInsights ⟨[], [], [], [], [], [], [], [], [], []⟩ InsightView.prediction
        (some "k") (GenOutcome.failure (some "Requested entity was not found"))
      = (Except.error InsightError.modelNotFound, 1) ∧
    getFinancialInsights ⟨[], [], [], [], [], [], [], [], [], []⟩ InsightView.prediction
        (some "k") (GenOutcome.failure (some "boom"))
      = (Except.ok "AI Analysis paused: boom", 1) :=
  ⟨rfl,
   (failure_classification ⟨[], [], [], [], [], [], [], [], [], []⟩ InsightView.prediction
      (some "k") (some "Requested entity was not found") rfl).1 (by decide),
   by
     have h := (failure_classification ⟨[], [], [], [], [], [], [], [], [], []⟩
       InsightView.prediction (some "k") (some "boom") rfl).2 (by decide)
     simpa using h⟩

/-- The category keys of `DashboardData` (`keyof DashboardData` in
`src/App.tsx`). -/
inductive SectionKey where
  | savingsAccounts
  | accountBalances
  | receivables
  | loans
  | subscriptions
  | savingsContribution
  | utilities
  | plans
  | mandatories
  | otherExpenses
deriving DecidableEq, Repr

/-- `prev[section]`: read the category list named by the key. -/
def getSection (data : DashboardData) : SectionKey → List FinancialEntry
  | SectionKey.savingsAccounts => data.savingsAccounts
  | SectionKey.accountBalances => data.accountBalances
  | SectionKey.receivables => data.receivables
  | SectionKey.loans => data.loans
  | SectionKey.subscriptions => data.subscriptions
  | SectionKey.savingsContribution => data.savingsContribution
  | SectionKey.utilities => data.utilities
  | SectionKey.plans => data.plans
  | SectionKey.mandatories => data.mandatories
  | SectionKey.otherExpenses => data.otherExpenses

/-- `{ ...prev, [section]: l }`: replace the category list named by the key. -/
def setSection (data : DashboardData) (key : SectionKey) (l : List FinancialEntry) :
    DashboardData :=
  match key with
  | SectionKey.savingsAccounts => { data with savingsAccounts := l }
  | SectionKey.accountBalances => { data with accountBalances := l }
  | SectionKey.receivables => { data with receivables := l }
  | SectionKey.loans => { data with loans := l }
  | SectionKey.subscriptions => { data with subscriptions := l }
  | SectionKey.savingsContribution => { data with savingsContribution := l }
  | SectionKey.utilities => { data with utilities := l }
  | SectionKey.plans => { data with plans := l }
  | SectionKey.mandatories => { data with mandatories := l }
  | SectionKey.otherExpenses => { data with otherExpenses := l }

/-- `addEntry` from `src/App.tsx` (lines 188-191): appends
`{ id: generateId(), label, amount, status: TransactionStatus.UNPAID }` to the
chosen category. The randomly generated id is passed in as `newId`. -/
def addEntry (data : DashboardData) (key : SectionKey) (label : String)
    (amount : ℚ) (newId : String) : DashboardData :=
  setSection data key (getSection data key ++
    [{ id := newId, label := label, amount := amount,
       status := some TransactionStatus.UNPAID }])

/-- `deleteEntry` from `src/App.tsx` (lines 193-195): removes every entry of
the chosen category whose id equals the given id. -/
def deleteEntry (data : DashboardData) (key : SectionKey) (id : String) :
    DashboardData :=
  setSection data key ((getSection data key).filter (fun e => decide (e.id ≠ id)))

/-- The seven categories concatenated into `allExpenses`. -/
def expenseSections : List SectionKey :=
  [SectionKey.loans, SectionKey.subscriptions, SectionKey.savingsContribution,
   SectionKey.utilities, SectionKey.plans, SectionKey.mandatories,
   SectionKey.otherExpenses]

lemma calculateTotal_filter_append (p : FinancialEntry → Bool)
    (l₁ l₂ : List FinancialEntry) :
    calculateTotal ((l₁ ++ l₂).filter p)
      = calculateTotal (l₁.filter p) + calculateTotal (l₂.filter p) := by
  rw [List.filter_append, calculateTotal_append]

/-- C9: adding an entry labelled "Test" with amount 100 to `utilities` (with a
fresh id, as `generateId` produces) grows `utilities` by exactly one, raises
`totalExpenses` by exactly 100, and leaves the other nine category lists
unchanged; deleting the entry by its id then restores the original data — and
hence all derived stats — exactly. -/
theorem add_delete_roundtrip (data : DashboardData) (newId : String)
    (h : newId ∉ data.utilities.map FinancialEntry.id) :
    (addEntry data SectionKey.utilities "Test" 100 newId).utilities.length
        = data.utilities.length + 1 ∧
    (computeStats (addEntry data SectionKey.utilities "Test" 100 newId)).totalExpenses
        = (computeStats data).totalExpenses + 100 ∧
    (addEntry data SectionKey.utilities "Test" 100 newId).savingsAccounts
        = data.savingsAccounts ∧
    (addEntry data SectionKey.utilities "Test" 100 newId).accountBalances
        = data.accountBalances ∧
    (addEntry data SectionKey.utilities "Test" 100 newId).receivables = data.receivables ∧
    (addEntry data SectionKey.utilities "Test" 100 newId).loans = data.loans ∧
    (addEntry data SectionKey.utilities "Test" 100 newId).subscriptions
        = data.subscriptions ∧
    (addEntry data SectionKey.utilities "Test" 100 newId).savingsContribution
        = data.savingsContribution ∧
    (addEntry data SectionKey.utilities "Test" 100 newId).plans = data.plans ∧
    (addEntry data SectionKey.utilities "Test" 100 newId).mandatories = data.mandatories ∧
    (addEntry data SectionKey.utilities "Test" 100 newId).otherExpenses
        = data.otherExpenses ∧
    deleteEntry (addEntry data SectionKey.utilities "Test" 100 newId)
        SectionKey.utilities newId = data := by
  refine ⟨?_, ?_, rfl, rfl, rfl, rfl, rfl, rfl, rfl, rfl, rfl, ?_⟩
  · simp [addEntry, setSection, getSection]
  · simp only [computeStats, addEntry, setSection, getSection, allExpenses,
      calculateTotal_append, calculateTotal_cons, calculateTotal_nil]
    ring
  · have hkeep : data.utilities.filter (fun e => decide (e.id ≠ newId)) = data.utilities := by
      refine List.filter_eq_self.mpr (fun x hx => ?_)
      simp only [decide_eq_true_eq]
      intro hcontra
      exact h (hcontra ▸ List.mem_map_of_mem FinancialEntry.id hx)
    have hdrop : List.filter (fun e => decide (e.id ≠ newId))
        [({ id := newId, label := "Test", amount := 100,
            status := some TransactionStatus.UNPAID } : FinancialEntry)] = [] := by
      simp
    simp only [deleteEntry, addEntry, setSection, getSection, List.filter_append,
      hkeep, hdrop, List.append_nil]

/-- Witness for C9: the round trip applied at the empty dashboard with the
fresh id "n1". -/
theorem add_delete_roundtrip_witness :
    ("n1" ∉ (DashboardData.utilities ⟨[], [], [], [], [], [], [], [], [], []⟩).map
        FinancialEntry.id) ∧
    (addEntry ⟨[], [], [], [], [], [], [], [], [], []⟩ SectionKey.utilities "Test" 100
        "n1").utilities.length
      = (DashboardData.utilities ⟨[], [], [], [], [], [], [], [], [], []⟩).length + 1 :=
  ⟨by simp,
   (add_delete_roundtrip ⟨[], [], [], [], [], [], [], [], [], []⟩ "n1" (by simp)).1⟩

/-- C10: every entry created through `addEntry` is given status `Unpaid`,
whichever category it is added to; consequently a freshly added expense entry
with positive amount immediately increases `unpaidExpenses` by its amount.
(The spec never states this default status.) -/
theorem addEntry_default_unpaid (data : DashboardData) (key : SectionKey)
    (label : String) (amount : ℚ) (newId : String) :
    getSection (addEntry data key label amount newId) key
      = getSection data key ++
        [{ id := newId, label := label, amount := amount,
           status := some TransactionStatus.UNPAID }] ∧
    (key ∈ expenseSections → 0 < amount →
      (computeStats (addEntry data key label amount newId)).unpaidExpenses
        = (computeStats data).unpaidExpenses + amount) := by
  constructor
  · cases key <;> rfl
  · intro hk hamount
    cases key
    case savingsAccounts => exact absurd hk (by decide)
    case accountBalances => exact absurd hk (by decide)
    case receivables => exact absurd hk (by decide)
    all_goals
      simp only [computeStats, addEntry, setSection, getSection, allExpenses,
        List.filter_append, calculateTotal_append]
      simp [List.filter_cons, unpaid_ne_paid, calculateTotal_cons, calculateTotal_nil]
      ring

/-- Witness for C10: adding a 100-peso entry to `utilities` on the empty
dashboard raises `unpaidExpenses` by 100. -/
theorem addEntry_default_unpaid_witness :
    SectionKey.utilities ∈ expenseSections ∧ (0 : ℚ) < 100 ∧
    (computeStats (addEntry ⟨[], [], [], [], [], [], [], [], [], []⟩ SectionKey.utilities
        "Test" 100 "n1")).unpaidExpenses
      = (computeStats ⟨[], [], [], [], [], [], [], [], [], []⟩).unpaidExpenses + 100 :=
  ⟨by decide, by norm_num,
   (addEntry_default_unpaid ⟨[], [], [], [], [], [], [], [], [], []⟩ SectionKey.utilities
      "Test" 100 "n1").2 (by decide) (by norm_num)⟩
